import Mathlib

/-!
Shallow embedding of `src/worldLevel.js` (class `WorldLevel`).

JavaScript numbers are modelled as rationals (`ℚ`); a field that may be
absent (`undefined`/`null`) is an `Option`.  The external pseudo-random
source (p5.js `randomSeed`/`random`) is modelled as an explicit state of
type `Nat` threaded through the computation, with an abstract `PRNG`
record supplying `seedFn` (the effect of `randomSeed`) and `draw` (the
effect of `random(min, max)`).  `floor`, `constrain` and `max` are the
p5.js helpers used by the source.
-/

/-- Axis-aligned rectangle `{x, y, w, h}` in world coordinates. -/
structure Rect where
  x : ℚ
  y : ℚ
  w : ℚ
  h : ℚ
  deriving DecidableEq

/-- Modelled from the spec: the external platform entity is constructed
from a `Rect` and retains its geometry (`x`, `y`, `w`, `h`), which the
geometry-inference helpers read back. -/
structure Platform where
  x : ℚ
  y : ℚ
  w : ℚ
  h : ℚ
  deriving DecidableEq

/-- `new Platform(p)` for a raw rect `p`. -/
def Platform.ofRect (r : Rect) : Platform := ⟨r.x, r.y, r.w, r.h⟩

/-- Modelled from the spec: the external shared pseudo-random source.
`seedFn n` is the state after `randomSeed(n)`; `draw lo hi s` is the
value/state pair produced by `random(lo, hi)` in state `s`.  The only
contract the module relies on — the same seed yields the same sequence
of draws — holds automatically because both fields are functions. -/
structure PRNG where
  seedFn : ℚ → Nat
  draw : ℚ → ℚ → Nat → ℚ × Nat

/-- A concrete instance of the random-source model, used to evaluate the
generator on explicit inputs. -/
def demoRng : PRNG where
  seedFn n := n.num.natAbs
  draw lo hi s := (lo + (hi - lo) * ((s % 8 : Nat) : ℚ) / 8, s + 1)

/-- p5.js `floor`, as a map on rationals. -/
def jsFloor (q : ℚ) : ℚ := (⌊q⌋ : ℚ)

/-- p5.js `constrain(n, low, high) = min(max(n, low), high)`. -/
def constrain (v lo hi : ℚ) : ℚ := min (max v lo) hi

/-- Number of iterations of `for (let i = 0; i < c; i++)` for a numeric
bound `c`: `max 0 ⌈c⌉`. -/
def jsLoopCount (c : ℚ) : ℕ := (Int.ceil c).toNat

/-- The `generated` config object: all fields optional, interpreted per
`type`.  Field names are those read by `generatePlatforms`. -/
structure GenConfig where
  type : Option String := none
  seed : Option ℚ := none
  worldW : Option ℚ := none
  floorY : Option ℚ := none
  floorH : Option ℚ := none
  startX : Option ℚ := none
  startY : Option ℚ := none
  stepW : Option ℚ := none
  stepH : Option ℚ := none
  rise : Option ℚ := none
  count : Option ℚ := none
  platH : Option ℚ := none
  platWMin : Option ℚ := none
  platWMax : Option ℚ := none
  gapMin : Option ℚ := none
  gapMax : Option ℚ := none
  riseMin : Option ℚ := none
  riseMax : Option ℚ := none
  deriving DecidableEq

/-- The stairs `for` loop: countdown fuel `n` together with the running
index `i`, pushing `{x: startX + i*stepW, y: startY - i*rise, w: stepW,
h: stepH}` each iteration. -/
def stairsLoop (startX startY stepW stepH rise : ℚ) : ℕ → ℕ → List Rect
  | 0, _ => []
  | n + 1, i =>
      ⟨startX + i * stepW, startY - i * rise, stepW, stepH⟩ ::
        stairsLoop startX startY stepW stepH rise n (i + 1)

/-- The resolved numeric parameters shared by the random-hops loop body. -/
structure HopParams where
  platH : ℚ
  platWMin : ℚ
  platWMax : ℚ
  gapMin : ℚ
  gapMax : ℚ
  riseMin : ℚ
  riseMax : ℚ
  minY : ℚ
  maxY : ℚ
  deriving DecidableEq

/-- The random-hops `for` loop: each iteration draws a width, emits
`{x, y, w, h: platH}`, draws a gap and a vertical delta, advances `x`
and clamps `y` into `[minY, maxY]` via `constrain`. -/
def hopsLoop (prng : PRNG) (hp : HopParams) : ℕ → ℚ → ℚ → Nat → List Rect × Nat
  | 0, _, _, s => ([], s)
  | n + 1, x, y, s =>
      let wDraw := prng.draw hp.platWMin (hp.platWMax + 1) s
      let w := jsFloor wDraw.1
      let gapDraw := prng.draw hp.gapMin (hp.gapMax + 1) wDraw.2
      let gap := jsFloor gapDraw.1
      let dyDraw := prng.draw hp.riseMin (hp.riseMax + 1) gapDraw.2
      let dy := jsFloor dyDraw.1
      let rest := hopsLoop prng hp n (x + w + gap) (constrain (y - dy) hp.minY hp.maxY) dyDraw.2
      (⟨x, y, w, hp.platH⟩ :: rest.1, rest.2)

/-- `WorldLevel.generatePlatforms(gen)`: reseeds the shared source when
`gen.seed` is a number, then dispatches on `gen.type`; an unknown type
contributes the empty list.  Returns the emitted rects together with the
random source's final state. -/
def generatePlatforms (prng : PRNG) (gen : GenConfig) (s : Nat) : List Rect × Nat :=
  let s0 := match gen.seed with
    | some n => prng.seedFn n
    | none => s
  if gen.type = some "stairs" then
    let worldW := gen.worldW.getD 640
    let floorY := gen.floorY.getD 324
    let floorH := gen.floorH.getD 36
    let startX := gen.startX.getD 120
    let startY := gen.startY.getD 290
    let stepW := gen.stepW.getD 80
    let stepH := gen.stepH.getD 12
    let rise := gen.rise.getD 22
    let count := gen.count.getD 8
    (⟨0, floorY, worldW, floorH⟩ ::
      stairsLoop startX startY stepW stepH rise (jsLoopCount count) 0, s0)
  else if gen.type = some "randomHops" then
    let worldW := gen.worldW.getD 900
    let floorY := gen.floorY.getD 324
    let floorH := gen.floorH.getD 36
    let count := gen.count.getD 10
    let hp : HopParams :=
      { platH := gen.platH.getD 12
        platWMin := gen.platWMin.getD 70
        platWMax := gen.platWMax.getD 120
        gapMin := gen.gapMin.getD 55
        gapMax := gen.gapMax.getD 95
        riseMin := gen.riseMin.getD (-15)
        riseMax := gen.riseMax.getD 25
        minY := 110
        maxY := floorY - 60 }
    let hops := hopsLoop prng hp (jsLoopCount count) (gen.startX.getD 140) (gen.startY.getD 280) s0
    (⟨0, floorY, worldW, floorH⟩ :: hops.1, hops.2)
  else ([], s0)

/-- A JavaScript value in the `generated` position, as far as the
constructor's truthiness test and `generatePlatforms` can observe it. -/
inductive JSVal where
  | vNull : JSVal
  | vBool : Bool → JSVal
  | vNum : ℚ → JSVal
  | vStr : String → JSVal
  | vObj : GenConfig → JSVal
  deriving DecidableEq

/-- JavaScript truthiness of a `JSVal` (objects are always truthy;
`null`, `false`, `0` and `""` are falsy). -/
def truthy : JSVal → Bool
  | .vNull => false
  | .vBool b => b
  | .vNum n => decide (n ≠ 0)
  | .vStr s => !s.isEmpty
  | .vObj _ => true

/-- Property access `gen.seed`, `gen.type`, … on a non-object value
yields `undefined` for every field, i.e. the all-absent config. -/
def asConfig : JSVal → GenConfig
  | .vObj c => c
  | _ => {}

/-- The `theme` sub-record of the input: any subset of keys. -/
structure ThemeDesc where
  bg : Option String := none
  platform : Option String := none
  blob : Option String := none
  deriving DecidableEq

/-- The `start` sub-record of the input: any subset of keys. -/
structure StartDesc where
  x : Option ℚ := none
  y : Option ℚ := none
  r : Option ℚ := none
  deriving DecidableEq

/-- The input level record (one parsed JSON level object); every field
optional.  `platforms = none` covers both an absent field and a present
non-array value (`Array.isArray` fails on both). -/
structure LevelDescription where
  name : Option String := none
  gravity : Option ℚ := none
  jumpV : Option ℚ := none
  theme : Option ThemeDesc := none
  start : Option StartDesc := none
  platforms : Option (List Rect) := none
  generated : Option JSVal := none

/-- Resolved theme triple. -/
structure Theme where
  bg : String
  platform : String
  blob : String
  deriving DecidableEq

/-- Resolved spawn point. -/
structure Start where
  x : ℚ
  y : ℚ
  r : ℚ
  deriving DecidableEq

/-- The built level object. -/
structure WorldLevel where
  name : String
  theme : Theme
  gravity : ℚ
  jumpV : ℚ
  start : Start
  platforms : List Platform

/-- `levelJson.name || "Level"`: the empty string is falsy. -/
def resolveName : Option String → String
  | some n => if n.isEmpty then "Level" else n
  | none => "Level"

/-- `Object.assign({bg:…, platform:…, blob:…}, levelJson.theme || {})`:
per-key override of the default triple. -/
def resolveTheme (t : Option ThemeDesc) : Theme :=
  let td := t.getD {}
  { bg := td.bg.getD "#F0F0F0"
    platform := td.platform.getD "#C8C8C8"
    blob := td.blob.getD "#1478FF" }

/-- `levelJson.start?.x ?? 80` and friends: optional chaining plus
nullish coalescing, independently per field. -/
def resolveStart (st : Option StartDesc) : Start :=
  { x := (st.bind StartDesc.x).getD 80
    y := (st.bind StartDesc.y).getD 180
    r := (st.bind StartDesc.r).getD 26 }

/-- The `WorldLevel` constructor: resolve name/theme/physics/spawn with
defaults, take the authored platforms if they form an array, run the
generator when `levelJson.generated` is truthy, and map every raw rect
into a `Platform`.  Returns the built level together with the random
source's final state. -/
def build (prng : PRNG) (desc : LevelDescription) (s : Nat) : WorldLevel × Nat :=
  let authored := desc.platforms.getD []
  let genOut : List Rect × Nat :=
    match desc.generated with
    | some v => if truthy v then generatePlatforms prng (asConfig v) s else ([], s)
    | none => ([], s)
  ({ name := resolveName desc.name
     theme := resolveTheme desc.theme
     gravity := desc.gravity.getD 0.65
     jumpV := desc.jumpV.getD (-11.0)
     start := resolveStart desc.start
     platforms := (authored ++ genOut.1).map Platform.ofRect }, genOut.2)

/-- p5.js `max(array)` on a non-empty array (the source only calls it on
a non-empty list). -/
def listMax : List ℚ → ℚ
  | [] => 0
  | a :: rest => rest.foldl max a

/-- `inferWidth(defaultW)`: the supplied default on an empty platform
list, else the maximum right edge `x + w`. -/
def WorldLevel.inferWidth (lvl : WorldLevel) (defaultW : ℚ) : ℚ :=
  if lvl.platforms.isEmpty then defaultW
  else listMax (lvl.platforms.map fun p => p.x + p.w)

/-- `inferHeight(defaultH)`: the supplied default on an empty platform
list, else the maximum bottom edge `y + h`. -/
def WorldLevel.inferHeight (lvl : WorldLevel) (defaultH : ℚ) : ℚ :=
  if lvl.platforms.isEmpty then defaultH
  else listMax (lvl.platforms.map fun p => p.y + p.h)

/-- The stairs example config from the spec:
`{type:"stairs", count:3, startX:0, startY:100, stepW:10, stepH:5, rise:2}`. -/
def stairsExCfg : GenConfig :=
  { type := some "stairs"
    count := some 3
    startX := some 0
    startY := some 100
    stepW := some 10
    stepH := some 5
    rise := some 2 }

/-- A stairs config that also carries a numeric seed. -/
def stairsSeedCfg : GenConfig :=
  { type := some "stairs"
    seed := some 5 }

/-- A random-hops config with one hop and defaults otherwise. -/
def hopsOneCfg : GenConfig :=
  { type := some "randomHops"
    count := some 1 }

/-- A random-hops config with three hops, a seed, and defaults otherwise. -/
def hopsThreeCfg : GenConfig :=
  { type := some "randomHops"
    count := some 3
    seed := some 42 }

example : jsLoopCount 3 = 3 := by simp [jsLoopCount]
example : jsLoopCount 0 = 0 := by simp [jsLoopCount]

example :
    (generatePlatforms demoRng stairsExCfg 0).1 =
    [⟨0, 324, 640, 36⟩, ⟨0, 100, 10, 5⟩, ⟨10, 98, 10, 5⟩, ⟨20, 96, 10, 5⟩] := by
  norm_num [generatePlatforms, stairsExCfg, stairsLoop, jsLoopCount]

example :
    ((generatePlatforms demoRng hopsOneCfg 0).1.map Rect.y) = [324, 280] := by
  norm_num [generatePlatforms, hopsOneCfg, hopsLoop, jsLoopCount, demoRng, jsFloor, constrain]
  simp

/-- The constructed level from the spec's ordering example: two authored
platforms plus a generated stairs config. -/
def descEx : LevelDescription :=
  { platforms := some [⟨0, 10, 10, 4⟩, ⟨20, 20, 5, 4⟩]
    generated := some (JSVal.vObj stairsExCfg) }

/-- A description whose optional fields carry explicit zero / partial
values, exercising nullish (not falsy) defaulting. -/
def descZero : LevelDescription :=
  { gravity := some 0
    jumpV := some 0
    start := some { y := some 50 } }

/-- A description whose `generated` field is present but falsy. -/
def descFalsy : LevelDescription :=
  { platforms := some [⟨0, 0, 10, 4⟩]
    generated := some (JSVal.vNum 0) }

/-- An unknown generator type, as in the spec's example. -/
def teleportCfg : GenConfig := { type := some "teleport" }

/-- A description carrying an unknown generator type. -/
def descTele : LevelDescription :=
  { platforms := some [⟨0, 0, 10, 4⟩]
    generated := some (JSVal.vObj teleportCfg) }

/-- A built level with no platforms at all. -/
def lvlEmpty : WorldLevel :=
  { name := "Level"
    theme := ⟨"#F0F0F0", "#C8C8C8", "#1478FF"⟩
    gravity := 0.65
    jumpV := -11.0
    start := ⟨80, 180, 26⟩
    platforms := [] }

theorem jsLoopCount_natCast (n : ℕ) : jsLoopCount (n : ℚ) = n := by
  simp [jsLoopCount]

theorem stairsLoop_length (sx sy sw sh r : ℚ) :
    ∀ (n i : ℕ), (stairsLoop sx sy sw sh r n i).length = n := by
  intro n
  induction n with
  | zero => intro i; simp [stairsLoop]
  | succ m ih => intro i; simp [stairsLoop, ih]

theorem stairsLoop_getElem (sx sy sw sh r : ℚ) :
    ∀ (n i j : ℕ), j < n →
      (stairsLoop sx sy sw sh r n i)[j]? =
        some ⟨sx + ((i : ℚ) + (j : ℚ)) * sw, sy - ((i : ℚ) + (j : ℚ)) * r, sw, sh⟩ := by
  intro n
  induction n with
  | zero => intro i j hj; omega
  | succ m ih =>
      intro i j hj
      cases j with
      | zero => simp [stairsLoop]
      | succ k =>
          have hk : k < m := by omega
          simp only [stairsLoop, List.getElem?_cons_succ, ih (i + 1) k hk]
          congr 2 <;> push_cast <;> ring

/-- C1: a stairs config with resolved parameters emits exactly one floor
rectangle `{x:0, y:floorY, w:worldW, h:floorH}` first, followed by
exactly `count` step rectangles, step `i` being
`{x: startX + i*stepW, y: startY - i*rise, w: stepW, h: stepH}`;
with `count = 0` only the floor is emitted. -/
theorem stairs_emits_floor_then_steps (prng : PRNG) (cfg : GenConfig) (s : Nat) (n : ℕ)
    (htype : cfg.type = some "stairs") (hcount : cfg.count.getD 8 = (n : ℚ)) :
    (generatePlatforms prng cfg s).1.length = n + 1 ∧
    (generatePlatforms prng cfg s).1[0]? =
      some ⟨0, cfg.floorY.getD 324, cfg.worldW.getD 640, cfg.floorH.getD 36⟩ ∧
    ∀ i : ℕ, i < n →
      (generatePlatforms prng cfg s).1[i + 1]? =
        some ⟨cfg.startX.getD 120 + (i : ℚ) * cfg.stepW.getD 80,
              cfg.startY.getD 290 - (i : ℚ) * cfg.rise.getD 22,
              cfg.stepW.getD 80, cfg.stepH.getD 12⟩ := by
  have hout : (generatePlatforms prng cfg s).1 =
      ⟨0, cfg.floorY.getD 324, cfg.worldW.getD 640, cfg.floorH.getD 36⟩ ::
        stairsLoop (cfg.startX.getD 120) (cfg.startY.getD 290) (cfg.stepW.getD 80)
          (cfg.stepH.getD 12) (cfg.rise.getD 22) n 0 := by
    simp only [generatePlatforms, htype, hcount, jsLoopCount_natCast, if_pos]
  refine ⟨?_, ?_, ?_⟩
  · simp [hout, stairsLoop_length]
  · simp [hout]
  · intro i hi
    have := stairsLoop_getElem (cfg.startX.getD 120) (cfg.startY.getD 290) (cfg.stepW.getD 80)
      (cfg.stepH.getD 12) (cfg.rise.getD 22) n 0 i hi
    simp only [hout, List.getElem?_cons_succ, this, Nat.cast_zero, zero_add]

/-- Witness for C1: the spec's stairs example, evaluated with the
concrete random-source model. -/
theorem stairs_emits_floor_then_steps_witness :
    (generatePlatforms demoRng stairsExCfg 0).1.length = 3 + 1 ∧
    (generatePlatforms demoRng stairsExCfg 0).1[0]? =
      some ⟨0, stairsExCfg.floorY.getD 324, stairsExCfg.worldW.getD 640,
            stairsExCfg.floorH.getD 36⟩ :=
  ⟨(stairs_emits_floor_then_steps demoRng stairsExCfg 0 3 rfl
      (by norm_num [stairsExCfg])).1,
   (stairs_emits_floor_then_steps demoRng stairsExCfg 0 3 rfl
      (by norm_num [stairsExCfg])).2.1⟩

theorem constrain_mem_band (v lo hi : ℚ) (h : lo ≤ hi) :
    lo ≤ constrain v lo hi ∧ constrain v lo hi ≤ hi := by
  unfold constrain
  constructor
  · exact le_min (le_max_right v lo) h
  · exact min_le_right _ _

theorem hopsLoop_band (prng : PRNG) (hp : HopParams) (h : hp.minY ≤ hp.maxY) :
    ∀ (n : ℕ) (x y : ℚ) (s : Nat), hp.minY ≤ y → y ≤ hp.maxY →
      ∀ r ∈ (hopsLoop prng hp n x y s).1, hp.minY ≤ r.y ∧ r.y ≤ hp.maxY := by
  intro n
  induction n with
  | zero => intro x y s _ _ r hr; simp [hopsLoop] at hr
  | succ m ih =>
      intro x y s hy1 hy2 r hr
      simp only [hopsLoop] at hr
      rcases List.mem_cons.mp hr with hhead | htail
      · subst hhead; exact ⟨hy1, hy2⟩
      · have hc := constrain_mem_band
          (y - jsFloor (prng.draw hp.riseMin (hp.riseMax + 1)
            (prng.draw hp.gapMin (hp.gapMax + 1)
              (prng.draw hp.platWMin (hp.platWMax + 1) s).2).2).1)
          hp.minY hp.maxY h
        exact ih _ _ _ hc.1 hc.2 r htail

theorem hopsLoop_tail_band (prng : PRNG) (hp : HopParams) (h : hp.minY ≤ hp.maxY) :
    ∀ (n : ℕ) (x y : ℚ) (s : Nat),
      ∀ r ∈ (hopsLoop prng hp n x y s).1.tail, hp.minY ≤ r.y ∧ r.y ≤ hp.maxY := by
  intro n
  cases n with
  | zero => intro x y s r hr; simp [hopsLoop] at hr
  | succ m =>
      intro x y s r hr
      simp only [hopsLoop, List.tail_cons] at hr
      have hc := constrain_mem_band
        (y - jsFloor (prng.draw hp.riseMin (hp.riseMax + 1)
          (prng.draw hp.gapMin (hp.gapMax + 1)
            (prng.draw hp.platWMin (hp.platWMax + 1) s).2).2).1)
        hp.minY hp.maxY h
      exact hopsLoop_band prng hp h m _ _ _ hc.1 hc.2 r hr

/-- C2 counterexample: with the default random-hops parameters (count
reduced to one hop) the first emitted hop platform has `y = 280`, which
is outside the claimed band `[110, floorY - 60] = [110, 264]`; so not
every non-floor platform lies in the band. -/
theorem hops_first_platform_outside_band :
    ((generatePlatforms demoRng hopsOneCfg 0).1.map Rect.y)[1]? = some 280 ∧
    ¬ ((110 : ℚ) ≤ 280 ∧ (280 : ℚ) ≤ 324 - 60) := by
  constructor
  · have h : (generatePlatforms demoRng hopsOneCfg 0).1 =
        [⟨0, 324, 900, 36⟩, ⟨140, 280, 70, 12⟩] := by
      norm_num [generatePlatforms, hopsOneCfg, hopsLoop, jsLoopCount, demoRng, jsFloor,
        constrain]
      simp
    rw [h]
    simp
  · norm_num

/-- C2 amended: every platform the random-hops generator emits other
than the floor and the first hop platform has its `y` in the closed band
`[110, floorY - 60]`, provided the band is non-empty
(`110 ≤ floorY - 60`); the first hop platform instead carries the
unclamped resolved `startY`. -/
theorem hops_tail_within_band (prng : PRNG) (cfg : GenConfig) (s : Nat)
    (htype : cfg.type = some "randomHops")
    (hband : (110 : ℚ) ≤ cfg.floorY.getD 324 - 60) :
    ∀ r ∈ (generatePlatforms prng cfg s).1.tail.tail,
      110 ≤ r.y ∧ r.y ≤ cfg.floorY.getD 324 - 60 := by
  intro r hr
  have hne : cfg.type ≠ some "stairs" := by rw [htype]; simp
  simp only [generatePlatforms, if_neg hne, if_pos htype, List.tail_cons] at hr
  exact hopsLoop_tail_band prng _ hband _ _ _ _ r hr

/-- Witness for C2's amended theorem: under the three-hop seeded config
and the concrete random-source model, the second hop platform is
`{x:292, y:264, w:101, h:12}` and its `y` lies in the band. -/
theorem hops_tail_within_band_witness :
    110 ≤ (Rect.mk 292 264 101 12).y ∧
    (Rect.mk 292 264 101 12).y ≤ hopsThreeCfg.floorY.getD 324 - 60 :=
  hops_tail_within_band demoRng hopsThreeCfg 0 rfl (by norm_num [hopsThreeCfg])
    (Rect.mk 292 264 101 12)
    (by
      have h : (generatePlatforms demoRng hopsThreeCfg 0).1.tail.tail =
          [Rect.mk 292 264 101 12, Rect.mk 478 244 70 12] := by
        norm_num [generatePlatforms, hopsThreeCfg, hopsLoop, jsLoopCount, demoRng, jsFloor,
          constrain, min_def, max_def]
        simp
      rw [h]
      simp)

/-- C3: when the config carries a numeric seed, the random source is
re-seeded deterministically before generation, so two invocations of the
generator with the identical config — from any two states of the random
source — produce identical output sequences. -/
theorem hops_seed_deterministic (prng : PRNG) (cfg : GenConfig) (q : ℚ) (s1 s2 : Nat)
    (_htype : cfg.type = some "randomHops") (hseed : cfg.seed = some q) :
    (generatePlatforms prng cfg s1).1 = (generatePlatforms prng cfg s2).1 := by
  simp only [generatePlatforms, hseed]

/-- Witness for C3: the seeded three-hop config generated from two
different source states. -/
theorem hops_seed_deterministic_witness :
    (generatePlatforms demoRng hopsThreeCfg 0).1 =
      (generatePlatforms demoRng hopsThreeCfg 99).1 :=
  hops_seed_deterministic demoRng hopsThreeCfg 42 0 99 rfl rfl

/-- C4 counterexample: a stairs config that carries a numeric seed does
NOT leave the shared pseudo-random source's state unchanged — the
reseeding in `generatePlatforms` happens before the type dispatch, so
from state 0 the source ends in state `seedFn 5 = 5 ≠ 0`. -/
theorem stairs_seed_reseeds_source :
    stairsSeedCfg.type = some "stairs" ∧
    (generatePlatforms demoRng stairsSeedCfg 0).2 = 5 ∧ (5 : Nat) ≠ 0 := by
  refine ⟨rfl, ?_, by decide⟩
  norm_num [generatePlatforms, stairsSeedCfg, demoRng]

/-- C4 amended: the stairs generator performs no random draws — its
emitted rectangles are independent of the incoming random-source state —
but a numeric `seed` field still reseeds the shared source (the reseed
happens before the type dispatch): without a seed the state is returned
unchanged, with seed `q` the final state is `seedFn q`. -/
theorem stairs_output_state_independent (prng : PRNG) (cfg : GenConfig) (s1 s2 : Nat)
    (htype : cfg.type = some "stairs") :
    (generatePlatforms prng cfg s1).1 = (generatePlatforms prng cfg s2).1 ∧
    (cfg.seed = none → (generatePlatforms prng cfg s1).2 = s1) ∧
    (∀ q : ℚ, cfg.seed = some q → (generatePlatforms prng cfg s1).2 = prng.seedFn q) := by
  refine ⟨?_, ?_, ?_⟩
  · cases hseed : cfg.seed with
    | none => simp [generatePlatforms, htype, hseed]
    | some q => simp [generatePlatforms, htype, hseed]
  · intro hseed; simp [generatePlatforms, htype, hseed]
  · intro q hseed; simp [generatePlatforms, htype, hseed]

/-- Witness for C4's amended theorem: the seeded stairs config. -/
theorem stairs_output_state_independent_witness :
    (generatePlatforms demoRng stairsSeedCfg 0).1 =
      (generatePlatforms demoRng stairsSeedCfg 7).1 ∧
    (generatePlatforms demoRng stairsSeedCfg 0).2 = demoRng.seedFn 5 :=
  ⟨(stairs_output_state_independent demoRng stairsSeedCfg 0 7 rfl).1,
   (stairs_output_state_independent demoRng stairsSeedCfg 0 7 rfl).2.2 5 rfl⟩

/-- C5: with an authored platforms array and a truthy generated config,
the built level's platform sequence is the mapped authored entries in
their original order followed by the mapped generator output in emission
order, so its length is the sum of the two. -/
theorem build_appends_generated_after_authored (prng : PRNG) (desc : LevelDescription)
    (cfg : GenConfig) (ps : List Rect) (s : Nat)
    (hp : desc.platforms = some ps) (hg : desc.generated = some (JSVal.vObj cfg)) :
    (build prng desc s).1.platforms =
      ps.map Platform.ofRect ++ (generatePlatforms prng cfg s).1.map Platform.ofRect ∧
    (build prng desc s).1.platforms.length =
      ps.length + (generatePlatforms prng cfg s).1.length := by
  constructor
  · simp [build, hp, hg, truthy, asConfig]
  · simp [build, hp, hg, truthy, asConfig]

/-- Witness for C5: two authored platforms plus the stairs example
config (which emits four rectangles). -/
theorem build_appends_generated_after_authored_witness :
    (build demoRng descEx 0).1.platforms =
      [Rect.mk 0 10 10 4, Rect.mk 20 20 5 4].map Platform.ofRect ++
        (generatePlatforms demoRng stairsExCfg 0).1.map Platform.ofRect ∧
    (build demoRng descEx 0).1.platforms.length =
      2 + (generatePlatforms demoRng stairsExCfg 0).1.length :=
  build_appends_generated_after_authored demoRng descEx stairsExCfg
    [Rect.mk 0 10 10 4, Rect.mk 20 20 5 4] 0 rfl rfl

/-- C6: defaulting of `gravity`, `jumpV` and the `start` fields treats
only null/undefined as absent and is independent per field: explicit
zeros survive, and a partial `start` record keeps defaults for exactly
the missing fields. -/
theorem defaults_nullish_only (prng : PRNG) (desc : LevelDescription) (s : Nat) :
    (desc.gravity = some 0 → (build prng desc s).1.gravity = 0) ∧
    (desc.jumpV = some 0 → (build prng desc s).1.jumpV = 0) ∧
    (desc.start = some { y := some 50 } → (build prng desc s).1.start = ⟨80, 50, 26⟩) ∧
    (desc.gravity = none → (build prng desc s).1.gravity = 0.65) ∧
    (desc.jumpV = none → (build prng desc s).1.jumpV = -11.0) ∧
    (desc.start = none → (build prng desc s).1.start = ⟨80, 180, 26⟩) := by
  refine ⟨?_, ?_, ?_, ?_, ?_, ?_⟩ <;> intro h <;> simp [build, resolveStart, h]

/-- Witness for C6: a description with explicit zero physics and a
partial start record. -/
theorem defaults_nullish_only_witness :
    (build demoRng descZero 0).1.gravity = 0 ∧
    (build demoRng descZero 0).1.jumpV = 0 ∧
    (build demoRng descZero 0).1.start = ⟨80, 50, 26⟩ :=
  ⟨(defaults_nullish_only demoRng descZero 0).1 rfl,
   (defaults_nullish_only demoRng descZero 0).2.1 rfl,
   (defaults_nullish_only demoRng descZero 0).2.2.1 rfl⟩

theorem le_foldl_max (l : List ℚ) : ∀ (a : ℚ), a ≤ l.foldl max a := by
  induction l with
  | nil => intro a; simp
  | cons b t ih =>
      intro a
      calc a ≤ max a b := le_max_left a b
        _ ≤ t.foldl max (max a b) := ih (max a b)

theorem mem_le_foldl_max (l : List ℚ) : ∀ (a x : ℚ), x ∈ l → x ≤ l.foldl max a := by
  induction l with
  | nil => intro a x hx; simp at hx
  | cons b t ih =>
      intro a x hx
      rcases List.mem_cons.mp hx with h | h
      · subst h
        calc x ≤ max a x := le_max_right a x
          _ ≤ t.foldl max (max a x) := le_foldl_max t (max a x)
      · exact ih (max a b) x h

theorem foldl_max_mem (l : List ℚ) : ∀ (a : ℚ), l.foldl max a = a ∨ l.foldl max a ∈ l := by
  induction l with
  | nil => intro a; left; rfl
  | cons b t ih =>
      intro a
      rcases ih (max a b) with h | h
      · rcases max_choice a b with hm | hm
        · left; simpa [hm] using h
        · right; rw [List.foldl_cons, h, hm]; exact List.mem_cons_self b t
      · right; exact List.mem_cons_of_mem b h

theorem le_listMax (l : List ℚ) (x : ℚ) (hx : x ∈ l) : x ≤ listMax l := by
  cases l with
  | nil => simp at hx
  | cons a t =>
      rcases List.mem_cons.mp hx with h | h
      · subst h; exact le_foldl_max t x
      · exact mem_le_foldl_max t a x h

theorem listMax_mem (l : List ℚ) (hl : l ≠ []) : listMax l ∈ l := by
  cases l with
  | nil => exact absurd rfl hl
  | cons a t =>
      rcases foldl_max_mem t a with h | h
      · rw [listMax, h]; exact List.mem_cons_self a t
      · exact List.mem_cons_of_mem a h

/-- C7: `inferWidth` returns the supplied default on an empty platform
list and otherwise the maximum right edge `x + w` over all platforms;
`inferHeight` symmetrically returns the default or the maximum bottom
edge `y + h`.  Both are plain functions of the built level (the
embedding gives them no access to any other state). -/
theorem infer_extents_max (lvl : WorldLevel) (dW dH : ℚ) :
    (lvl.platforms = [] → lvl.inferWidth dW = dW ∧ lvl.inferHeight dH = dH) ∧
    (lvl.platforms ≠ [] →
      ((∀ p ∈ lvl.platforms, p.x + p.w ≤ lvl.inferWidth dW) ∧
        ∃ p ∈ lvl.platforms, lvl.inferWidth dW = p.x + p.w) ∧
      ((∀ p ∈ lvl.platforms, p.y + p.h ≤ lvl.inferHeight dH) ∧
        ∃ p ∈ lvl.platforms, lvl.inferHeight dH = p.y + p.h)) := by
  constructor
  · intro h
    constructor <;> simp [WorldLevel.inferWidth, WorldLevel.inferHeight, h]
  · intro h
    have hne : lvl.platforms.isEmpty = false := by
      simpa [List.isEmpty_iff] using h
    have hmapW : lvl.platforms.map (fun p => p.x + p.w) ≠ [] := by
      simpa using h
    have hmapH : lvl.platforms.map (fun p => p.y + p.h) ≠ [] := by
      simpa using h
    refine ⟨⟨?_, ?_⟩, ⟨?_, ?_⟩⟩
    · intro p hp
      rw [WorldLevel.inferWidth, if_neg (by simp [hne])]
      exact le_listMax _ _ (List.mem_map_of_mem _ hp)
    · rw [WorldLevel.inferWidth, if_neg (by simp [hne])]
      rcases List.mem_map.mp (listMax_mem _ hmapW) with ⟨p, hpmem, hpeq⟩
      exact ⟨p, hpmem, hpeq.symm⟩
    · intro p hp
      rw [WorldLevel.inferHeight, if_neg (by simp [hne])]
      exact le_listMax _ _ (List.mem_map_of_mem _ hp)
    · rw [WorldLevel.inferHeight, if_neg (by simp [hne])]
      rcases List.mem_map.mp (listMax_mem _ hmapH) with ⟨p, hpmem, hpeq⟩
      exact ⟨p, hpmem, hpeq.symm⟩

/-- Witness for C7: the empty-platform level returns the supplied
defaults. -/
theorem infer_extents_max_witness :
    lvlEmpty.inferWidth 640 = 640 ∧ lvlEmpty.inferHeight 360 = 360 :=
  (infer_extents_max lvlEmpty 640 360).1 rfl

/-- C8: a generator config whose type is neither "stairs" nor
"randomHops" contributes an empty platform sequence (the embedding is a
total function, so no error is possible), and the built level then
contains exactly the mapped authored platforms. -/
theorem unknown_type_contributes_nothing (prng : PRNG) (desc : LevelDescription)
    (cfg : GenConfig) (ps : List Rect) (s : Nat)
    (h1 : cfg.type ≠ some "stairs") (h2 : cfg.type ≠ some "randomHops")
    (hp : desc.platforms = some ps) (hg : desc.generated = some (JSVal.vObj cfg)) :
    (generatePlatforms prng cfg s).1 = [] ∧
    (build prng desc s).1.platforms = ps.map Platform.ofRect := by
  have hgen : (generatePlatforms prng cfg s).1 = [] := by
    simp [generatePlatforms, h1, h2]
  refine ⟨hgen, ?_⟩
  simp [build, hp, hg, truthy, asConfig, hgen]

/-- Witness for C8: the `{type:"teleport"}` example. -/
theorem unknown_type_contributes_nothing_witness :
    (generatePlatforms demoRng teleportCfg 0).1 = [] ∧
    (build demoRng descTele 0).1.platforms = [Rect.mk 0 0 10 4].map Platform.ofRect :=
  unknown_type_contributes_nothing demoRng descTele teleportCfg [Rect.mk 0 0 10 4] 0
    (by simp [teleportCfg]) (by simp [teleportCfg]) rfl rfl

/-- C9: `build` is total (it is a plain Lean function on every
description) and every documented field of the result is populated:
each one is either the provided value or the documented default, never
absent. -/
theorem build_total_all_fields_populated (prng : PRNG) (desc : LevelDescription) (s : Nat) :
    ((build prng desc s).1.name = "Level" ∨
      ∃ n, desc.name = some n ∧ (build prng desc s).1.name = n) ∧
    ((build prng desc s).1.theme.bg = "#F0F0F0" ∨
      ∃ c, desc.theme.bind ThemeDesc.bg = some c ∧ (build prng desc s).1.theme.bg = c) ∧
    ((build prng desc s).1.theme.platform = "#C8C8C8" ∨
      ∃ c, desc.theme.bind ThemeDesc.platform = some c ∧
        (build prng desc s).1.theme.platform = c) ∧
    ((build prng desc s).1.theme.blob = "#1478FF" ∨
      ∃ c, desc.theme.bind ThemeDesc.blob = some c ∧ (build prng desc s).1.theme.blob = c) ∧
    ((build prng desc s).1.gravity = 0.65 ∨
      ∃ g, desc.gravity = some g ∧ (build prng desc s).1.gravity = g) ∧
    ((build prng desc s).1.jumpV = -11.0 ∨
      ∃ j, desc.jumpV = some j ∧ (build prng desc s).1.jumpV = j) ∧
    ((build prng desc s).1.start.x = 80 ∨
      ∃ v, desc.start.bind StartDesc.x = some v ∧ (build prng desc s).1.start.x = v) ∧
    ((build prng desc s).1.start.y = 180 ∨
      ∃ v, desc.start.bind StartDesc.y = some v ∧ (build prng desc s).1.start.y = v) ∧
    ((build prng desc s).1.start.r = 26 ∨
      ∃ v, desc.start.bind StartDesc.r = some v ∧ (build prng desc s).1.start.r = v) := by
  refine ⟨?_, ?_, ?_, ?_, ?_, ?_, ?_, ?_, ?_⟩
  · cases hname : desc.name with
    | none => left; simp [build, resolveName, hname]
    | some n =>
        by_cases hn : n.isEmpty
        · left; simp [build, resolveName, hname, hn]
        · right; exact ⟨n, rfl, by simp [build, resolveName, hname, hn]⟩
  · cases ht : desc.theme with
    | none => left; simp [build, resolveTheme, ht]
    | some td =>
        cases hbg : td.bg with
        | none => left; simp [build, resolveTheme, ht, hbg]
        | some c => right; exact ⟨c, by simp [ht, hbg], by simp [build, resolveTheme, ht, hbg]⟩
  · cases ht : desc.theme with
    | none => left; simp [build, resolveTheme, ht]
    | some td =>
        cases hpf : td.platform with
        | none => left; simp [build, resolveTheme, ht, hpf]
        | some c => right; exact ⟨c, by simp [ht, hpf], by simp [build, resolveTheme, ht, hpf]⟩
  · cases ht : desc.theme with
    | none => left; simp [build, resolveTheme, ht]
    | some td =>
        cases hbl : td.blob with
        | none => left; simp [build, resolveTheme, ht, hbl]
        | some c => right; exact ⟨c, by simp [ht, hbl], by simp [build, resolveTheme, ht, hbl]⟩
  · cases hg : desc.gravity with
    | none => left; simp [build, hg]
    | some g => right; exact ⟨g, rfl, by simp [build, hg]⟩
  · cases hj : desc.jumpV with
    | none => left; simp [build, hj]
    | some j => right; exact ⟨j, rfl, by simp [build, hj]⟩
  · cases hst : desc.start with
    | none => left; simp [build, resolveStart, hst]
    | some sd =>
        cases hx : sd.x with
        | none => left; simp [build, resolveStart, hst, hx]
        | some v => right; exact ⟨v, by simp [hst, hx], by simp [build, resolveStart, hst, hx]⟩
  · cases hst : desc.start with
    | none => left; simp [build, resolveStart, hst]
    | some sd =>
        cases hy : sd.y with
        | none => left; simp [build, resolveStart, hst, hy]
        | some v => right; exact ⟨v, by simp [hst, hy], by simp [build, resolveStart, hst, hy]⟩
  · cases hst : desc.start with
    | none => left; simp [build, resolveStart, hst]
    | some sd =>
        cases hr : sd.r with
        | none => left; simp [build, resolveStart, hst, hr]
        | some v => right; exact ⟨v, by simp [hst, hr], by simp [build, resolveStart, hst, hr]⟩

/-- C10: whether the generator runs is decided by the truthiness of the
`generated` field, not by its presence: a present-but-falsy value (0,
false, "", null) invokes no generator and no reseeding (the random
source's state is returned unchanged), and the platforms are exactly the
mapped authored ones. -/
theorem falsy_generated_skips_generator (prng : PRNG) (desc : LevelDescription)
    (v : JSVal) (s : Nat)
    (hg : desc.generated = some v) (hf : truthy v = false) :
    (build prng desc s).1.platforms = (desc.platforms.getD []).map Platform.ofRect ∧
    (build prng desc s).2 = s := by
  constructor <;> simp [build, hg, hf]

/-- Witness for C10: `generated: 0` with one authored platform. -/
theorem falsy_generated_skips_generator_witness :
    (build demoRng descFalsy 0).1.platforms =
      (descFalsy.platforms.getD []).map Platform.ofRect ∧
    (build demoRng descFalsy 0).2 = 0 :=
  falsy_generated_skips_generator demoRng descFalsy (JSVal.vNum 0) 0 rfl
    (by simp [truthy])
